import Mathlib

/-!
Verification development for the OracleLens credibility evaluation engine.

The TypeScript sources are shallowly embedded as Lean definitions:

* `Scoring` — packages/scoring/src (baseScores.ts, formulas.ts);
* `AIGen` — packages/ai/src (selectFormula.ts, generateFormula.ts);
* `ZkVerify` — apps/web/src/lib/zkTlsVerify.ts (mock verification path),
  with SHA-256 (FIPS 180-4) implemented concretely to model node's
  createHash used by the source;
* `WebEval` — apps/web/src/lib/evaluate.ts (inline factor calculators and
  the evaluation pipeline);
* `OracleRoute` — apps/web/src/app/api/oracle-data/[requestId]/route.ts
  (the pending-verification cache);
* `EvalRoute` — apps/web/src/app/api/evaluate/route.ts (POST validation).

JavaScript numbers are modelled as real numbers where the code computes
with `Math.exp`, as rationals where all arithmetic is exact decimal, and
by the `JsNum` type (reals extended with infinities and NaN) where the
claim under scrutiny hinges on division by zero.  `Date.now()` and
`Math.random()` results are passed as explicit parameters.  Awaited
external calls are modelled as `Except String` valued inputs.
-/

-- ============================================================
-- Shared helpers: JS string includes / toLowerCase on char lists
-- ============================================================

/-- Character-list test used to model `String.prototype.startsWith`:
`charsStartWith s sub` is true when `sub` heads `s`. -/
def charsStartWith : List Char → List Char → Bool
  | _, [] => true
  | [], _ :: _ => false
  | a :: as, b :: bs => a == b && charsStartWith as bs

/-- Character-list substring test, modelling `String.prototype.includes`. -/
def charsContain : List Char → List Char → Bool
  | [], sub => sub.isEmpty
  | s@(_ :: rest), sub => charsStartWith s sub || charsContain rest sub

/-- Model of `s.includes(sub)` on JavaScript strings. -/
def jsIncludes (s sub : String) : Bool :=
  charsContain s.toList sub.toList

/-- Model of `s.toLowerCase()` (ASCII folding, via `Char.toLower`). -/
def jsToLower (s : String) : String :=
  ⟨s.toList.map Char.toLower⟩

/-- Model of JavaScript `Math.round` on exact rationals:
`Math.round(x) = floor(x + 0.5)`. -/
def jsRoundQ (q : ℚ) : ℤ := ⌊q + 1/2⌋

/-- Rounding to two decimal places, `Math.round(x * 100) / 100`, on exact
rationals. -/
def round2 (q : ℚ) : ℚ := (jsRoundQ (q * 100) : ℚ) / 100

-- ============================================================
-- Scoring package: trust-level ladder (formulas.ts getTrustLevel)
-- ============================================================

/-- Trust classification returned by the credibility aggregator. -/
inductive TrustLevel where
  | untrusted
  | low
  | medium
  | high
deriving DecidableEq

/-- Numeric rank of a trust level, used to state monotonicity
(`untrusted < low < medium < high`). -/
def TrustLevel.rank : TrustLevel → ℕ
  | .untrusted => 0
  | .low => 1
  | .medium => 2
  | .high => 3

namespace Scoring

/-- Embeds `getTrustLevel` from packages/scoring/src/formulas.ts
(also duplicated verbatim in apps/web/src/lib/evaluate.ts):
`score >= 90 → high`, else `score >= minAcceptable → medium`,
else `score >= minAcceptable - 15 → low`, else `untrusted`. -/
def getTrustLevel (score minAcceptable : ℤ) : TrustLevel :=
  if score ≥ 90 then .high
  else if score ≥ minAcceptable then .medium
  else if score ≥ minAcceptable - 15 then .low
  else .untrusted

end Scoring

-- ============================================================
-- AI package: weight profiles and adjustment (selectFormula.ts)
-- ============================================================

/-- The four factor weights of a formula, as exact rationals. -/
structure Weights where
  source : ℚ
  time : ℚ
  accuracy : ℚ
  proof : ℚ
deriving DecidableEq

/-- Sum of the four weights. -/
def Weights.sum (w : Weights) : ℚ :=
  w.source + w.time + w.accuracy + w.proof

/-- Optional per-factor deltas, mirroring the `adjustments` argument of
`applyWeightAdjustments` (each field optional in TypeScript). -/
structure WeightAdjustments where
  source : Option ℚ
  time : Option ℚ
  accuracy : Option ℚ
  proof : Option ℚ

namespace AIGen

/-- Clamp used by `applyWeightAdjustments`:
`Math.max(0.05, Math.min(0.7, x))`. -/
def clamp0570 (x : ℚ) : ℚ := max (5/100) (min (7/10) x)

/-- Embeds `applyWeightAdjustments` from packages/ai/src/selectFormula.ts.
If no adjustments object is supplied the base weights are returned
unchanged; otherwise deltas are added (missing fields default to 0), each
weight is clamped to [0.05, 0.7], and the four are divided by their sum. -/
def applyWeightAdjustments (baseWeights : Weights)
    (adjustments : Option WeightAdjustments) : Weights :=
  match adjustments with
  | none => baseWeights
  | some adj =>
    let adjusted : Weights :=
      { source := clamp0570 (baseWeights.source + (adj.source.getD 0))
        time := clamp0570 (baseWeights.time + (adj.time.getD 0))
        accuracy := clamp0570 (baseWeights.accuracy + (adj.accuracy.getD 0))
        proof := clamp0570 (baseWeights.proof + (adj.proof.getD 0)) }
    let s := adjusted.sum
    { source := adjusted.source / s
      time := adjusted.time / s
      accuracy := adjusted.accuracy / s
      proof := adjusted.proof / s }

end AIGen

-- ============================================================
-- JSON-style dynamic values (JS `unknown` payloads)
-- ============================================================

/-- Dynamic JavaScript values as they arrive from JSON parsing.  JSON
numbers are finite decimals, modelled exactly as rationals. -/
inductive JSValue where
  | undefined
  | null
  | bool (b : Bool)
  | num (q : ℚ)
  | str (s : String)
  | obj (fields : List (String × JSValue))

/-- JavaScript truthiness test on dynamic values (`!v` negated).
`undefined`, `null`, `false`, `0` and the empty string are falsy; every
object is truthy. -/
def jsFalsy : JSValue → Bool
  | .undefined => true
  | .null => true
  | .bool b => !b
  | .num q => q == 0
  | .str s => s == ""
  | .obj _ => false

/-- Truthiness of an optional boolean field (for TypeScript
`proofVerified?: boolean`): `undefined` is falsy. -/
def optTruthy (o : Option Bool) : Bool := o.getD false

-- ============================================================
-- AI package: context type and custom formula generation
-- ============================================================

/-- Embeds `OracleDataContext` from packages/ai/src/types.ts. -/
structure OracleDataContext where
  dataType : String
  oracleName : String
  dataValue : JSValue
  sourceUrl : Option String
  reportedTimestamp : Option ℤ
  currentTimestamp : ℤ
  hasZkProof : Bool
  proofVerified : Option Bool
  userHint : Option String
  referenceDataAvailable : Bool

/-- Embeds `GeneratedFormula` from packages/ai/src/types.ts.  The
free-text `reasoning` report field is presentation-only and not
modelled. -/
structure GeneratedFormula where
  id : String
  name : String
  description : String
  weights : Weights
  minAcceptableScore : ℤ
  applicableDataTypes : List String

namespace AIGen

/-- Keys of `FORMULA_TEMPLATES` in packages/ai/src/generateFormula.ts. -/
inductive TemplateKind where
  | financial
  | environmental
  | governance
  | event_outcome
  | sensitive
  | balanced
deriving DecidableEq

/-- Base weights of each entry of `FORMULA_TEMPLATES`. -/
def templateBaseWeights : TemplateKind → Weights
  | .financial => ⟨25/100, 30/100, 30/100, 15/100⟩
  | .environmental => ⟨35/100, 25/100, 20/100, 20/100⟩
  | .governance => ⟨45/100, 10/100, 15/100, 30/100⟩
  | .event_outcome => ⟨20/100, 15/100, 25/100, 40/100⟩
  | .sensitive => ⟨15/100, 10/100, 20/100, 55/100⟩
  | .balanced => ⟨25/100, 25/100, 25/100, 25/100⟩

/-- The `minScore` of each entry of `FORMULA_TEMPLATES`. -/
def templateMinScore : TemplateKind → ℤ
  | .financial => 70
  | .environmental => 60
  | .governance => 75
  | .event_outcome => 80
  | .sensitive => 85
  | .balanced => 65

/-- Template key as the string used in generated ids and names. -/
def templateName : TemplateKind → String
  | .financial => "financial"
  | .environmental => "environmental"
  | .governance => "governance"
  | .event_outcome => "event_outcome"
  | .sensitive => "sensitive"
  | .balanced => "balanced"

/-- Category detection of `analyzeContext` (generateFormula.ts): the
first keyword group that occurs in the lower-cased rationale wins, and
`balanced` is the default. -/
def detectTemplate (reason : String) : TemplateKind :=
  let r := jsToLower reason
  if jsIncludes r "financial" || jsIncludes r "price" || jsIncludes r "trading" then
    .financial
  else if jsIncludes r "environment" || jsIncludes r "weather" || jsIncludes r "sensor" then
    .environmental
  else if jsIncludes r "governance" || jsIncludes r "vote" || jsIncludes r "policy" then
    .governance
  else if jsIncludes r "event" || jsIncludes r "outcome" || jsIncludes r "result" then
    .event_outcome
  else if jsIncludes r "sensitive" || jsIncludes r "private" || jsIncludes r "kyc" then
    .sensitive
  else
    .balanced

/-- Delta accumulation of `analyzeContext` (generateFormula.ts): the
adjustments record starts at zero and the discrete rules add to it in
program order. -/
def contextAdjustments (context : OracleDataContext) (reason : String) : Weights :=
  let r := jsToLower reason
  let a0 : Weights := ⟨0, 0, 0, 0⟩
  let a1 :=
    if context.hasZkProof then
      if optTruthy context.proofVerified then
        { a0 with proof := a0.proof + 5/100 }
      else
        { a0 with proof := a0.proof - 5/100, source := a0.source + 5/100 }
    else
      { a0 with proof := a0.proof - 5/100, accuracy := a0.accuracy + 5/100 }
  let a2 :=
    if !context.referenceDataAvailable then
      { a1 with accuracy := a1.accuracy - 5/100, source := a1.source + 3/100,
                proof := a1.proof + 2/100 }
    else a1
  let a3 :=
    if jsIncludes r "real-time" || jsIncludes r "time-critical" then
      { a2 with time := a2.time + 10/100 }
    else a2
  if jsIncludes r "untrusted" || jsIncludes r "unknown source" then
    { a3 with source := a3.source + 10/100 }
  else a3

/-- Clamp of generateFormula.ts: `Math.max(0.05, Math.min(0.60, x))`. -/
def clamp0560 (x : ℚ) : ℚ := max (5/100) (min (60/100) x)

/-- Normalisation block of `generateCustomFormula` (generateFormula.ts):
divide each clamped weight by the sum with two-decimal rounding, then fold
any residual rounding error into the source weight (`weights.source += 1.0
- finalSum`, rounded again) whenever the rounded sum is not exactly 1. -/
def normalizeRound (w : Weights) : Weights :=
  let s := w.sum
  let w3 : Weights :=
    { source := round2 (w.source / s), time := round2 (w.time / s)
      accuracy := round2 (w.accuracy / s), proof := round2 (w.proof / s) }
  let finalSum := w3.sum
  if finalSum ≠ 1 then
    { w3 with source := round2 (w3.source + (1 - finalSum)) }
  else w3

/-- Capitalisation used for generated formula names:
`template.charAt(0).toUpperCase() + template.slice(1)`. -/
def capitalizeFirst (s : String) : String :=
  match s.toList with
  | [] => ""
  | c :: cs => ⟨c.toUpper :: cs⟩

/-- Embeds `generateCustomFormula` from packages/ai/src/generateFormula.ts.
`nowTag` stands for the effectful `Date.now().toString(36)` used only in
the generated id.  Weights are adjusted, clamped to [0.05, 0.60],
normalised by their sum with two-decimal rounding, and any residual
rounding error is folded into the source weight; the minimum acceptable
score is the template threshold nudged by strict/lenient wording and
clamped to [50, 95]. -/
def generateCustomFormula (context : OracleDataContext) (reason : String)
    (nowTag : String) : GeneratedFormula :=
  let template := detectTemplate reason
  let adjustments := contextAdjustments context reason
  let base := templateBaseWeights template
  let w1 : Weights :=
    { source := base.source + adjustments.source
      time := base.time + adjustments.time
      accuracy := base.accuracy + adjustments.accuracy
      proof := base.proof + adjustments.proof }
  let w2 : Weights :=
    { source := clamp0560 w1.source, time := clamp0560 w1.time
      accuracy := clamp0560 w1.accuracy, proof := clamp0560 w1.proof }
  let w4 := normalizeRound w2
  let r := jsToLower reason
  let m0 := templateMinScore template
  let m1 := if jsIncludes r "strict" || jsIncludes r "high standard" then m0 + 10 else m0
  let m2 := if jsIncludes r "lenient" || jsIncludes r "flexible" then m1 - 10 else m1
  { id := "custom_" ++ templateName template ++ "_" ++ nowTag
    name := "Custom " ++ capitalizeFirst (templateName template) ++ " Formula"
    description := "AI-generated formula for: " ++ (reason.take 100)
    weights := w4
    minAcceptableScore := max 50 (min 95 m2)
    applicableDataTypes := [context.dataType] }

end AIGen

-- ============================================================
-- Scoring package: time and proof calculators (baseScores.ts)
-- ============================================================

namespace Scoring

/-- Embeds `calculateTimeScore` from packages/scoring/src (baseScores.ts):
future timestamps get the fixed 0.5 penalty, ages beyond the maximum get
linear decay, in-range ages get clamped exponential decay with half-life
`maxAcceptableAgeSeconds / 2`. -/
noncomputable def calculateTimeScore
    (reportedTimestamp currentTimestamp maxAcceptableAgeSeconds : ℝ) : ℝ :=
  let ageSeconds := currentTimestamp - reportedTimestamp
  if ageSeconds < 0 then 0.5
  else if ageSeconds > maxAcceptableAgeSeconds then
    max 0 (1 - (ageSeconds / maxAcceptableAgeSeconds - 1) * 0.5)
  else
    max 0 (min 1 (Real.exp (-ageSeconds / (maxAcceptableAgeSeconds / 2))))

/-- Modelled from the spec claim wording (no source function):
the piecewise time factor that claim C6 asserts, stated on the age
directly — fixed 0.5 for negative age, `max(0, 1 - (age/maxAge - 1)*0.5)`
past the cliff, `exp(-age/halfLife)` with `halfLife = maxAge/2`
otherwise.  Used only to compare implementations against the claim. -/
noncomputable def claimedTimeScore (age maxAge : ℝ) : ℝ :=
  if age < 0 then 0.5
  else if age > maxAge then max 0 (1 - (age / maxAge - 1) * 0.5)
  else Real.exp (-age / (maxAge / 2))

/-- The `trustedDomains` allow-list inside `calculateProofScore`
(baseScores.ts). -/
def trustedDomains : List String :=
  ["api.coingecko.com", "api.coinmarketcap.com", "api.binance.com",
   "api.kraken.com", "pro-api.coinmarketcap.com"]

/-- Embeds `calculateProofScore` from packages/scoring/src (baseScores.ts):
0.4 without a proof, 0.1 on failed verification, 1.0 when the verified
domain hits the allow-list, 0.9 otherwise.  A missing or empty domain is
falsy in the source's `input.proofDomain && ...` guard. -/
def calculateProofScore (hasZkProof proofVerified : Bool)
    (proofDomain : Option String) : ℚ :=
  if !hasZkProof then 4/10
  else if !proofVerified then 1/10
  else
    match proofDomain with
    | some d => if trustedDomains.any (fun t => jsIncludes d t) then 1 else 9/10
    | none => 9/10

end Scoring

-- ============================================================
-- JavaScript float semantics where division by zero matters
-- ============================================================

/-- JavaScript numbers for the accuracy calculator: real numbers extended
with the two infinities and NaN, so that the IEEE-754 behaviour of
division by zero is captured. -/
inductive JsNum where
  | num (x : ℝ)
  | posInf
  | negInf
  | nan

namespace JsNum

/-- JS `Math.abs`. -/
noncomputable def abs : JsNum → JsNum
  | num x => num |x|
  | posInf => posInf
  | negInf => posInf
  | nan => nan

/-- JS unary minus. -/
noncomputable def neg : JsNum → JsNum
  | num x => num (-x)
  | posInf => negInf
  | negInf => posInf
  | nan => nan

/-- JS subtraction. -/
noncomputable def sub : JsNum → JsNum → JsNum
  | nan, _ => nan
  | _, nan => nan
  | num a, num b => num (a - b)
  | posInf, num _ => posInf
  | negInf, num _ => negInf
  | num _, posInf => negInf
  | num _, negInf => posInf
  | posInf, posInf => nan
  | posInf, negInf => posInf
  | negInf, posInf => negInf
  | negInf, negInf => nan

open Classical in
/-- JS multiplication (zero times an infinity is NaN). -/
noncomputable def mul : JsNum → JsNum → JsNum
  | nan, _ => nan
  | _, nan => nan
  | num a, num b => num (a * b)
  | num a, posInf => if a = 0 then nan else if 0 < a then posInf else negInf
  | num a, negInf => if a = 0 then nan else if 0 < a then negInf else posInf
  | posInf, num b => if b = 0 then nan else if 0 < b then posInf else negInf
  | negInf, num b => if b = 0 then nan else if 0 < b then negInf else posInf
  | posInf, posInf => posInf
  | posInf, negInf => negInf
  | negInf, posInf => negInf
  | negInf, negInf => posInf

open Classical in
/-- JS division: a nonzero finite number over zero is a signed infinity,
`0 / 0` is NaN, a finite number over an infinity is zero. -/
noncomputable def div : JsNum → JsNum → JsNum
  | nan, _ => nan
  | _, nan => nan
  | num a, num b =>
    if b = 0 then (if a = 0 then nan else if 0 < a then posInf else negInf)
    else num (a / b)
  | posInf, num b => if b < 0 then negInf else posInf
  | negInf, num b => if b < 0 then posInf else negInf
  | num _, posInf => num 0
  | num _, negInf => num 0
  | posInf, posInf => nan
  | posInf, negInf => nan
  | negInf, posInf => nan
  | negInf, negInf => nan

open Classical in
/-- JS `<=` comparison as a boolean; any comparison with NaN is false. -/
noncomputable def le : JsNum → JsNum → Bool
  | nan, _ => false
  | _, nan => false
  | num a, num b => decide (a ≤ b)
  | negInf, _ => true
  | _, posInf => true
  | posInf, num _ => false
  | posInf, negInf => false
  | num _, negInf => false

/-- JS `Math.exp`. -/
noncomputable def exp : JsNum → JsNum
  | num x => num (Real.exp x)
  | posInf => posInf
  | negInf => num 0
  | nan => nan

open Classical in
/-- JS `Math.min` (NaN-propagating). -/
noncomputable def jmin : JsNum → JsNum → JsNum
  | nan, _ => nan
  | _, nan => nan
  | num a, num b => num (min a b)
  | negInf, _ => negInf
  | _, negInf => negInf
  | posInf, b => b
  | a, posInf => a

open Classical in
/-- JS `Math.max` (NaN-propagating). -/
noncomputable def jmax : JsNum → JsNum → JsNum
  | nan, _ => nan
  | _, nan => nan
  | num a, num b => num (max a b)
  | posInf, _ => posInf
  | _, posInf => posInf
  | negInf, b => b
  | a, negInf => a

end JsNum

open Classical in
/-- Ascending insertion into a sorted list of reals, modelling a step of
`[...referenceValues].sort((a, b) => a - b)`. -/
noncomputable def insertSortedR (x : ℝ) : List ℝ → List ℝ
  | [] => [x]
  | y :: ys => if x ≤ y then x :: y :: ys else y :: insertSortedR x ys

/-- Ascending numeric sort of `[...referenceValues].sort((a, b) => a - b)`. -/
noncomputable def sortR : List ℝ → List ℝ
  | [] => []
  | x :: xs => insertSortedR x (sortR xs)

/-- Median of the reference values as computed in `calculateAccuracyScore`:
mean of the two central elements for even length, central element for odd
length (`Math.floor(length / 2)` is natural division). -/
noncomputable def medianR (vals : List ℝ) : ℝ :=
  let sorted := sortR vals
  let n := sorted.length
  if n % 2 == 0 then (sorted.getD (n / 2 - 1) 0 + sorted.getD (n / 2) 0) / 2
  else sorted.getD (n / 2) 0

namespace Scoring

/-- Embeds `calculateAccuracyScore` from packages/scoring/src
(baseScores.ts) with IEEE-754 semantics for the deviation computation:
inputs arrive from JSON and are finite, but the internal division by the
median follows JavaScript, so a zero median produces an infinity or NaN
exactly as the source does. -/
noncomputable def calculateAccuracyScoreJs (primaryValue : ℝ)
    (referenceValues : List ℝ) (tolerancePercent : ℝ) : JsNum :=
  if referenceValues.isEmpty then .num 0.7
  else
    let median := medianR referenceValues
    let deviationPercent :=
      JsNum.mul (JsNum.abs (JsNum.div (.num (primaryValue - median)) (.num median)))
        (.num 100)
    if JsNum.le deviationPercent (.num tolerancePercent) then
      JsNum.sub (.num 1)
        (JsNum.mul (JsNum.div deviationPercent (.num tolerancePercent)) (.num 0.1))
    else
      let excessDeviation := JsNum.sub deviationPercent (.num tolerancePercent)
      let score :=
        JsNum.mul (.num 0.9)
          (JsNum.exp (JsNum.neg (JsNum.div excessDeviation (.num tolerancePercent))))
      JsNum.jmax (.num 0) (JsNum.jmin (.num 1) score)

end Scoring

-- ============================================================
-- SHA-256 (FIPS 180-4), modelling node's createHash('sha256')
-- ============================================================

/-- 32-bit modular addition. -/
def add32 (a b : ℕ) : ℕ := (a + b) % 4294967296

/-- 32-bit right rotation. -/
def rotr32 (b n : ℕ) : ℕ := ((n >>> b) ||| (n <<< (32 - b))) % 4294967296

/-- 32-bit complement. -/
def not32 (n : ℕ) : ℕ := n ^^^ 4294967295

/-- SHA-256 message-schedule sigma-0. -/
def smallSigma0 (n : ℕ) : ℕ := rotr32 7 n ^^^ rotr32 18 n ^^^ (n >>> 3)

/-- SHA-256 message-schedule sigma-1. -/
def smallSigma1 (n : ℕ) : ℕ := rotr32 17 n ^^^ rotr32 19 n ^^^ (n >>> 10)

/-- SHA-256 compression Sigma-0. -/
def bigSigma0 (a : ℕ) : ℕ := rotr32 2 a ^^^ rotr32 13 a ^^^ rotr32 22 a

/-- SHA-256 compression Sigma-1. -/
def bigSigma1 (e : ℕ) : ℕ := rotr32 6 e ^^^ rotr32 11 e ^^^ rotr32 25 e

/-- SHA-256 choice function. -/
def chFn (e f g : ℕ) : ℕ := (e &&& f) ^^^ (not32 e &&& g)

/-- SHA-256 majority function. -/
def majFn (a b c : ℕ) : ℕ := (a &&& b) ^^^ (a &&& c) ^^^ (b &&& c)

/-- The 64 SHA-256 round constants. -/
def sha256K : List ℕ :=
  [1116352408, 1899447441, 3049323471,
   3921009573, 961987163, 1508970993,
   2453635748, 2870763221, 3624381080,
   310598401, 607225278, 1426881987,
   1925078388, 2162078206, 2614888103,
   3248222580, 3835390401, 4022224774,
   264347078, 604807628, 770255983,
   1249150122, 1555081692, 1996064986,
   2554220882, 2821834349, 2952996808,
   3210313671, 3336571891, 3584528711,
   113926993, 338241895, 666307205,
   773529912, 1294757372, 1396182291,
   1695183700, 1986661051, 2177026350,
   2456956037, 2730485921, 2820302411,
   3259730800, 3345764771, 3516065817,
   3600352804, 4094571909, 275423344,
   430227734, 506948616, 659060556,
   883997877, 958139571, 1322822218,
   1537002063, 1747873779, 1955562222,
   2024104815, 2227730452, 2361852424,
   2428436474, 2756734187, 3204031479,
   3329325298]

/-- The SHA-256 initial hash state. -/
def sha256H0 : List ℕ :=
  [1779033703, 3144134277, 1013904242,
   2773480762, 1359893119, 2600822924,
   528734635, 1541459225]

/-- Big-endian 8-byte encoding of the bit length. -/
def beBytes8 (n : ℕ) : List ℕ :=
  [(n >>> 56) % 256, (n >>> 48) % 256, (n >>> 40) % 256, (n >>> 32) % 256,
   (n >>> 24) % 256, (n >>> 16) % 256, (n >>> 8) % 256, n % 256]

/-- Big-endian 4-byte encoding of a 32-bit word. -/
def beBytes4 (n : ℕ) : List ℕ :=
  [(n >>> 24) % 256, (n >>> 16) % 256, (n >>> 8) % 256, n % 256]

/-- SHA-256 padding: append 0x80, zero fill to 56 mod 64, then the 64-bit
big-endian message bit length. -/
def sha256Pad (msg : List ℕ) : List ℕ :=
  let l := msg.length
  let k := (64 + 56 - ((l + 1) % 64)) % 64
  msg ++ (128 :: List.replicate k 0) ++ beBytes8 (8 * l)

/-- Big-endian grouping of bytes into 32-bit words. -/
def toWordsBE : List ℕ → List ℕ
  | b0 :: b1 :: b2 :: b3 :: rest =>
    (((b0 * 256 + b1) * 256 + b2) * 256 + b3) :: toWordsBE rest
  | _ => []

/-- Fuelled grouping of the word stream into 16-word blocks (the fuel is
structural so that the definition evaluates inside the kernel). -/
def toChunks16Fuel : ℕ → List ℕ → List (List ℕ)
  | 0, _ => []
  | _, [] => []
  | fuel + 1, ws => ws.take 16 :: toChunks16Fuel fuel (ws.drop 16)

/-- Message-schedule extension: appends the next scheduled word `n`
times. -/
def extendW : ℕ → List ℕ → List ℕ
  | 0, w => w
  | n + 1, w =>
    let i := w.length
    let wi := add32 (add32 (smallSigma1 (w.getD (i - 2) 0)) (w.getD (i - 7) 0))
      (add32 (smallSigma0 (w.getD (i - 15) 0)) (w.getD (i - 16) 0))
    extendW n (w ++ [wi])

/-- One SHA-256 compression round on the eight-word working state. -/
def compressStep (st : List ℕ) (k w : ℕ) : List ℕ :=
  match st with
  | [a, b, c, d, e, f, g, h] =>
    let t1 := add32 h (add32 (bigSigma1 e) (add32 (chFn e f g) (add32 k w)))
    let t2 := add32 (bigSigma0 a) (majFn a b c)
    [add32 t1 t2, a, b, c, add32 d t1, e, f, g]
  | other => other

/-- SHA-256 compression of one 16-word block into the running state. -/
def compressBlock (h : List ℕ) (block : List ℕ) : List ℕ :=
  let w := extendW 48 block
  let st := (List.zip sha256K w).foldl (fun s kw => compressStep s kw.1 kw.2) h
  (List.zip h st).map (fun p => add32 p.1 p.2)

/-- SHA-256 digest (32 bytes) of a byte list. -/
def sha256Bytes (msg : List ℕ) : List ℕ :=
  let blocks := toChunks16Fuel (msg.length + 64) (toWordsBE (sha256Pad msg))
  let hFinal := blocks.foldl compressBlock sha256H0
  List.flatten (hFinal.map beBytes4)

/-- Lower-case hex digit. -/
def hexDigitChar (n : ℕ) : Char := Char.ofNat (if n < 10 then 48 + n else 87 + n)

/-- Two hex digits of a byte. -/
def byteHex (b : ℕ) : List Char := [hexDigitChar (b / 16), hexDigitChar (b % 16)]

/-- Hex string of a byte list, as node's `digest('hex')` renders it. -/
def bytesToHex (bs : List ℕ) : String := ⟨List.flatten (bs.map byteHex)⟩

/-- UTF-8 bytes of a string; all strings hashed by the source are
ASCII, where code points and bytes coincide. -/
def strBytes (s : String) : List ℕ := s.toList.map Char.toNat

/-- Model of `createHash('sha256').update(s).digest('hex')`. -/
def sha256Hex (s : String) : String := bytesToHex (sha256Bytes (strBytes s))

-- ============================================================
-- zkTLS mock verification (apps/web/src/lib/zkTlsVerify.ts)
-- ============================================================

namespace ZkVerify

/-- Embeds `OracleDataForVerification` from zkTlsVerify.ts.  The
`dataValue` record enters the hash only through `JSON.stringify`; the
field here holds that serialised form. -/
structure OracleDataForVerification where
  requestId : String
  sourceUrl : String
  oracleName : String
  dataType : String
  dataValueJson : String

/-- Embeds `ZkVerificationResult` from zkTlsVerify.ts for the mock path.
The `verifiedDomain` hostname extraction is URL plumbing and is not
modelled. -/
structure ZkVerificationResult where
  success : Bool
  verified : Bool
  proofHash : String
  timestamp : ℕ
  mode : String

/-- The seed of the mock: `oracleName + dataType +
JSON.stringify(dataValue)`. -/
def mockSeed (data : OracleDataForVerification) : String :=
  data.oracleName ++ data.dataType ++ data.dataValueJson

/-- Value of `parseInt(hash.substring(0, 8), 16)`: the first four digest
bytes read big-endian. -/
def hashNumOf (s : String) : ℕ :=
  match sha256Bytes (strBytes s) with
  | b0 :: b1 :: b2 :: b3 :: _ => ((b0 * 256 + b1) * 256 + b2) * 256 + b3
  | _ => 0

/-- Embeds `mockVerification` from apps/web/src/lib/zkTlsVerify.ts.
`now` is the `Date.now()` value observed by the call.  The verified flag
comes from the hash of the seed alone; the proof hash mixes the
timestamp into the hashed material (`seed + timestamp`). -/
def mockVerification (data : OracleDataForVerification) (now : ℕ) :
    ZkVerificationResult :=
  let seed := mockSeed data
  let hashNum := hashNumOf seed
  let verified := hashNum % 10 != 0
  let proofHash := "0x" ++ sha256Hex (seed ++ toString now)
  { success := true, verified := verified, proofHash := proofHash,
    timestamp := now, mode := "mock" }

end ZkVerify

-- ============================================================
-- Web evaluation engine (apps/web/src/lib/evaluate.ts)
-- ============================================================

/-- Embeds `EvaluateRequest` from apps/web/src/lib/types.ts (the unused
optional `clientZkTls` payload is omitted). -/
structure EvaluateRequest where
  oracleName : String
  dataType : String
  dataValue : JSValue
  sourceUrl : Option String
  referenceValues : Option (List ℚ)

/-- One factor's raw and weighted score in the response breakdown. -/
structure FactorPair where
  raw : ℝ
  weighted : ℝ

/-- The per-factor breakdown of an `EvaluateResponse`. -/
structure BreakdownR where
  source : FactorPair
  time : FactorPair
  accuracy : FactorPair
  proof : FactorPair

/-- Embeds `EvaluateResponse` from apps/web/src/lib/types.ts (without the
optional `onChain` envelope, which evaluate.ts never sets). -/
structure EvaluateResponse where
  success : Bool
  requestId : String
  score : ℤ
  trustLevel : TrustLevel
  breakdown : BreakdownR
  formulaId : String
  formulaName : String
  explanation : String
  aiReasoning : String
  zkVerified : Bool
  proofHash : String
  timestamp : ℤ
  error : Option String

/-- Model of JavaScript `Math.round` on reals: `floor(x + 0.5)`. -/
noncomputable def jsRoundR (x : ℝ) : ℤ := ⌊x + 1/2⌋

namespace WebEval

/-- Embeds the `ORACLE_REPUTATION` table of evaluate.ts. -/
def ORACLE_REPUTATION : List (String × ℚ) :=
  [("chainlink", 95/100), ("pyth", 90/100), ("api3", 85/100),
   ("band", 80/100), ("dia", 75/100), ("weatherapi", 80/100),
   ("unknown", 50/100)]

/-- Embeds `calculateSourceScore` from evaluate.ts: case-insensitive
reputation lookup with the `unknown` entry (0.50) as fallback. -/
def calculateSourceScore (oracleName : String) : ℚ :=
  match ORACLE_REPUTATION.find? (fun p => p.1 == jsToLower oracleName) with
  | some p => p.2
  | none => 50/100

/-- Embeds `calculateTimeScore` from evaluate.ts.  `now` is the
`Date.now()` value (milliseconds) observed inside the function; the
source defaults `maxAgeSeconds` to 300.  Note the shape: 0.5 for a
future timestamp, a hard 0.1 beyond `2 * maxAgeSeconds`, exponential
decay otherwise — there is no linear post-cliff segment here. -/
noncomputable def calculateTimeScore (now reportedTimestamp : ℝ)
    (maxAgeSeconds : ℝ) : ℝ :=
  let ageSeconds := (now - reportedTimestamp) / 1000
  if ageSeconds < 0 then 0.5
  else if ageSeconds > maxAgeSeconds * 2 then 0.1
  else Real.exp (-ageSeconds / (maxAgeSeconds / 2))

/-- Embeds `calculateAccuracyScore` from evaluate.ts over plain reals
(the zero-median IEEE corner is analysed separately through
`Scoring.calculateAccuracyScoreJs`). -/
noncomputable def calculateAccuracyScore (primaryValue : ℝ)
    (referenceValues : List ℝ) (tolerancePercent : ℝ) : ℝ :=
  if referenceValues.isEmpty then 0.7
  else
    let median := medianR referenceValues
    let deviationPercent := |(primaryValue - median) / median| * 100
    if deviationPercent ≤ tolerancePercent then
      1 - deviationPercent / tolerancePercent * 0.1
    else
      max 0.1 (0.9 * Real.exp (-(deviationPercent - tolerancePercent) / tolerancePercent))

/-- Embeds `calculateProofScore` from evaluate.ts: 0.4 without proof, 0.1
on failed verification, a single 0.95 tier for any verified proof (no
domain distinction in this inline copy). -/
def webCalculateProofScore (hasProof verified : Bool) : ℚ :=
  if !hasProof then 4/10
  else if !verified then 1/10
  else 95/100

/-- Formula records of the `FORMULAS` table in evaluate.ts. -/
structure Formula where
  id : String
  name : String
  weights : Weights
  minAcceptableScore : ℤ

/-- The `price_feed_v1` entry of evaluate.ts. -/
def price_feed_v1 : Formula :=
  { id := "price_feed_v1", name := "Price Feed Formula",
    weights := ⟨25/100, 30/100, 30/100, 15/100⟩, minAcceptableScore := 70 }

/-- The `weather_v1` entry of evaluate.ts. -/
def weather_v1 : Formula :=
  { id := "weather_v1", name := "Weather Data Formula",
    weights := ⟨35/100, 25/100, 20/100, 20/100⟩, minAcceptableScore := 60 }

/-- The `generic_v1` entry of evaluate.ts. -/
def generic_v1 : Formula :=
  { id := "generic_v1", name := "Generic Formula",
    weights := ⟨25/100, 25/100, 25/100, 25/100⟩, minAcceptableScore := 65 }

/-- Keyed access to the `FORMULAS` record of evaluate.ts. -/
def FORMULAS : String → Option Formula := fun formulaId =>
  if formulaId == "price_feed_v1" then some price_feed_v1
  else if formulaId == "weather_v1" then some weather_v1
  else if formulaId == "generic_v1" then some generic_v1
  else none

/-- Upper-cased trust level as interpolated into the explanation. -/
def trustUpper : TrustLevel → String
  | .high => "HIGH"
  | .medium => "MEDIUM"
  | .low => "LOW"
  | .untrusted => "UNTRUSTED"

/-- The four raw factor scores (`BaseScores` in evaluate.ts). -/
structure BaseScores where
  source : ℝ
  time : ℝ
  accuracy : ℝ
  proof : ℝ

/-- Embeds `generateExplanation` from evaluate.ts: deterministic
templated lines keyed on rounded factor percentages. -/
noncomputable def generateExplanation (baseScores : BaseScores)
    (formula : Formula) (finalScore : ℤ) (trustLevel : TrustLevel) : String :=
  let sp := jsRoundR (baseScores.source * 100)
  let tp := jsRoundR (baseScores.time * 100)
  let ap := jsRoundR (baseScores.accuracy * 100)
  let pp := jsRoundR (baseScores.proof * 100)
  let sourceLine :=
    if sp ≥ 80 then "• Source Reliability: " ++ toString sp ++ "% - Highly trusted oracle"
    else if sp ≥ 60 then "• Source Reliability: " ++ toString sp ++ "% - Moderately trusted"
    else "• Source Reliability: " ++ toString sp ++ "% - Unknown or untrusted source"
  let timeLine :=
    if tp ≥ 80 then "• Time Freshness: " ++ toString tp ++ "% - Data is fresh"
    else if tp ≥ 50 then "• Time Freshness: " ++ toString tp ++ "% - Data is slightly stale"
    else "• Time Freshness: " ++ toString tp ++ "% - Data is outdated"
  let accuracyLine :=
    if ap ≥ 80 then "• Consistency: " ++ toString ap ++ "% - Aligns with other sources"
    else if ap ≥ 60 then "• Consistency: " ++ toString ap ++ "% - Minor deviation"
    else "• Consistency: " ++ toString ap ++ "% - Significant deviation detected"
  let proofLine :=
    if pp ≥ 90 then "• zkTLS Proof: " ++ toString pp ++ "% - Cryptographically verified"
    else if pp ≥ 40 then "• zkTLS Proof: " ++ toString pp ++ "% - No proof provided"
    else "• zkTLS Proof: " ++ toString pp ++ "% - Verification failed"
  String.intercalate "\n"
    ["Credibility Score: " ++ toString finalScore ++ "/100 (" ++ trustUpper trustLevel ++ ")",
     "Formula Used: " ++ formula.name, "", "Factor Breakdown:",
     sourceLine, timeLine, accuracyLine, proofLine]

/-- Property access `v.name` on a dynamic value: throws a TypeError on
`null`/`undefined`, yields `undefined` for absent fields and on
primitives. -/
def jsMember (v : JSValue) (name : String) : Except String JSValue :=
  match v with
  | .undefined => .error "Cannot read properties of undefined"
  | .null => .error "Cannot read properties of null"
  | .obj fields =>
    .ok (match fields.find? (fun p => p.1 == name) with
         | some p => p.2
         | none => .undefined)
  | _ => .ok .undefined

/-- Results of the awaited collaborator calls inside
`evaluateOracleData`; a rejected promise is an `Except.error` carrying
the thrown message.  `formulaSelection` carries the `formulaId` of the
`selectFormulaWithAI` result, the only field the pipeline reads. -/
structure EvalDeps where
  storeResult : Except String Unit
  zkResult : Except String ZkVerify.ZkVerificationResult
  formulaSelection : Except String String
  aiAnalysis : Except String String

/-- The `try` block of `evaluateOracleData` (evaluate.ts lines 184-285),
sequencing extraction, factor scores, the pending-verification store, the
zkTLS verification, formula selection, aggregation, and the AI analysis,
in source order. -/
noncomputable def evaluateBody (request : EvaluateRequest) (timestamp : ℤ)
    (requestId : String) (deps : EvalDeps) : Except String EvaluateResponse :=
  match jsMember request.dataValue "price" with
  | .error e => .error e
  | .ok priceV =>
  match jsMember request.dataValue "temperature" with
  | .error e => .error e
  | .ok tempV =>
  match jsMember request.dataValue "timestamp" with
  | .error e => .error e
  | .ok tsV =>
  let primaryValue : ℚ :=
    match priceV with
    | .num q => q
    | _ => match tempV with
           | .num q => q
           | _ => 0
  let reportedTimestamp : ℚ :=
    match tsV with
    | .num q => q
    | _ => (timestamp : ℚ) - 60000
  let sourceScore := calculateSourceScore request.oracleName
  let timeScore := calculateTimeScore (timestamp : ℝ) (reportedTimestamp : ℝ) 300
  let accuracyScore := calculateAccuracyScore (primaryValue : ℝ)
    ((request.referenceValues.getD []).map (fun q => (q : ℝ)))
    (if jsIncludes request.dataType "weather" then 5 else 1)
  match deps.storeResult with
  | .error e => .error e
  | .ok _ =>
  match deps.zkResult with
  | .error e => .error e
  | .ok zkResult =>
  let zkVerified := zkResult.verified
  let proofHash := zkResult.proofHash
  let proofScore := webCalculateProofScore zkResult.success zkVerified
  let baseScores : BaseScores :=
    ⟨(sourceScore : ℝ), timeScore, accuracyScore, (proofScore : ℝ)⟩
  match deps.formulaSelection with
  | .error e => .error e
  | .ok formulaId =>
  let formula := (FORMULAS formulaId).getD generic_v1
  let weightedSource := baseScores.source * (formula.weights.source : ℝ)
  let weightedTime := baseScores.time * (formula.weights.time : ℝ)
  let weightedAccuracy := baseScores.accuracy * (formula.weights.accuracy : ℝ)
  let weightedProof := baseScores.proof * (formula.weights.proof : ℝ)
  let normalizedScore := weightedSource + weightedTime + weightedAccuracy + weightedProof
  let finalScore := jsRoundR (normalizedScore * 100)
  let trustLevel := Scoring.getTrustLevel finalScore formula.minAcceptableScore
  let explanation := generateExplanation baseScores formula finalScore trustLevel
  match deps.aiAnalysis with
  | .error e => .error e
  | .ok aiReasoning =>
  .ok {
    success := true, requestId := requestId, score := finalScore,
    trustLevel := trustLevel,
    breakdown :=
      { source := ⟨baseScores.source, weightedSource⟩,
        time := ⟨baseScores.time, weightedTime⟩,
        accuracy := ⟨baseScores.accuracy, weightedAccuracy⟩,
        proof := ⟨baseScores.proof, weightedProof⟩ },
    formulaId := formula.id, formulaName := formula.name,
    explanation := explanation, aiReasoning := aiReasoning,
    zkVerified := zkVerified, proofHash := proofHash,
    timestamp := timestamp, error := none }

/-- The failed-evaluation envelope built by the `catch` block of
`evaluateOracleData`. -/
def errorEnvelope (requestId : String) (timestamp : ℤ) (message : String) :
    EvaluateResponse :=
  { success := false, requestId := requestId, score := 0,
    trustLevel := .untrusted,
    breakdown := ⟨⟨0, 0⟩, ⟨0, 0⟩, ⟨0, 0⟩, ⟨0, 0⟩⟩,
    formulaId := "error", formulaName := "Error",
    explanation := "Evaluation failed", aiReasoning := "",
    zkVerified := false, proofHash := "", timestamp := timestamp,
    error := some message }

/-- Embeds `evaluateOracleData` from apps/web/src/lib/evaluate.ts.
`now` models `Date.now()` and `ridSuffix` the random request-id suffix;
any failure of the body is converted into the structured failed
envelope by the surrounding try/catch. -/
noncomputable def evaluateOracleData (request : EvaluateRequest) (now : ℤ)
    (ridSuffix : String) (deps : EvalDeps) : EvaluateResponse :=
  let timestamp := now
  let requestId := "req_" ++ toString timestamp ++ "_" ++ ridSuffix
  match evaluateBody request timestamp requestId deps with
  | .ok r => r
  | .error e => errorEnvelope requestId timestamp e

end WebEval

-- ============================================================
-- Pending-verification cache (api/oracle-data/[requestId]/route.ts)
-- ============================================================

namespace OracleRoute

/-- Value stored in the `pendingVerifications` map (without the
`createdAt` stamp, which lives on the entry). -/
structure PendingData where
  oracleName : String
  dataType : String
  dataValue : JSValue
  sourceUrl : Option String
  referenceValues : Option (List ℚ)

/-- One entry of the `pendingVerifications` map; `createdAt` is the
`Date.now()` at insertion, in milliseconds. -/
structure CacheEntry where
  requestId : String
  data : PendingData
  createdAt : ℤ

/-- The map, in insertion order as a JS `Map` iterates it. -/
abbrev CacheState := List CacheEntry

/-- Embeds `cleanupOldEntries`: drop every entry strictly older than the
5-minute TTL (`now - createdAt > 300000`). -/
def cleanupOldEntries (now : ℤ) (s : CacheState) : CacheState :=
  s.filter (fun e => !(decide (now - e.createdAt > 300000)))

/-- `Map.set` semantics: update in place when the key exists, append
otherwise. -/
def mapSet (s : CacheState) (k : String) (d : PendingData) (createdAt : ℤ) :
    CacheState :=
  if s.any (fun e => e.requestId == k) then
    s.map (fun e => if e.requestId == k then ⟨k, d, createdAt⟩ else e)
  else s ++ [⟨k, d, createdAt⟩]

/-- Embeds `storePendingVerification`: sweep expired entries, then insert
the new one stamped with the current time. -/
def storePendingVerification (requestId : String) (d : PendingData)
    (now : ℤ) (s : CacheState) : CacheState :=
  mapSet (cleanupOldEntries now s) requestId d now

/-- Cache operations at given `Date.now()` times: the `store` insert and
the GET-handler `read` (which never mutates the map). -/
inductive CacheOp where
  | store (requestId : String) (d : PendingData) (now : ℤ)
  | read (requestId : String) (now : ℤ)

/-- State transition of one cache operation. -/
def cacheStep (s : CacheState) : CacheOp → CacheState
  | .store k d now => storePendingVerification k d now s
  | .read _ _ => s

/-- State reached from the empty map by a sequence of operations. -/
def runCache (ops : List CacheOp) : CacheState := ops.foldl cacheStep []

end OracleRoute

-- ============================================================
-- Evaluate endpoint validation (api/evaluate/route.ts)
-- ============================================================

namespace EvalRoute

/-- Outcome of the POST handler before/at the pipeline boundary: either
the 400 rejection, or the evaluated pipeline result. -/
inductive PostOutcome where
  | badRequest (status : ℕ) (message : String)
  | ok (resp : EvaluateResponse)

/-- Embeds the validation and dispatch of `POST` in
api/evaluate/route.ts.  The declared-string fields `oracleName` and
`dataType` are falsy exactly when empty; `dataValue` is typed `unknown`
and is checked with full JavaScript truthiness.  When validation fails
the handler returns status 400 and `evaluateOracleData` is never
invoked. -/
noncomputable def postRoute (oracleName dataType : String)
    (dataValue : JSValue) (sourceUrl : Option String)
    (referenceValues : Option (List ℚ)) (now : ℤ) (ridSuffix : String)
    (deps : WebEval.EvalDeps) : PostOutcome :=
  if oracleName == "" || dataType == "" || jsFalsy dataValue then
    .badRequest 400 "Missing required fields: oracleName, dataType, dataValue"
  else
    .ok (WebEval.evaluateOracleData
      ⟨oracleName, dataType, dataValue, sourceUrl, referenceValues⟩
      now ridSuffix deps)

end EvalRoute

-- ============================================================
-- Shared concrete inputs for witnesses and counterexamples
-- ============================================================

/-- A concrete well-formed evaluation request. -/
def sampleRequest : EvaluateRequest :=
  ⟨"Chainlink", "price_feed", .obj [], none, none⟩

/-- Concrete collaborator results whose zkTLS verification rejects. -/
def sampleDeps : WebEval.EvalDeps :=
  { storeResult := .ok (), zkResult := .error "boom",
    formulaSelection := .ok "price_feed_v1", aiAnalysis := .ok "" }

/-- A concrete pending-verification payload. -/
def samplePending : OracleRoute.PendingData :=
  ⟨"Chainlink", "price_feed", .obj [], none, none⟩

/-- A concrete verification input for the zkTLS mock (the serialised
`dataValue` is the empty JSON object). -/
def sampleVerifData : ZkVerify.OracleDataForVerification :=
  ⟨"req1", "", "a", "b", "\x7b\x7d"⟩

/-- A concrete custom-formula generation context. -/
def sampleContext : OracleDataContext :=
  { dataType := "custom_stream", oracleName := "Chainlink",
    dataValue := .obj [], sourceUrl := none, reportedTimestamp := none,
    currentTimestamp := 0, hasZkProof := true, proofVerified := some true,
    userHint := none, referenceDataAvailable := true }

-- ============================================================
-- Helper lemmas
-- ============================================================

/-- Value of the JS rounding kernel on integer multiples of 1/100 scaled
back up by 100: the floor of `n + 1/2` is `n`. -/
theorem jsRoundQ_intCast_div (n : ℤ) : jsRoundQ ((n : ℚ) / 100 * 100) = n := by
  unfold jsRoundQ
  rw [div_mul_cancel₀ _ (by norm_num : (100 : ℚ) ≠ 0), Int.floor_int_add]
  norm_num

/-- Two-decimal rounding is the identity on integer multiples of 1/100. -/
theorem round2_intCast_div (n : ℤ) : round2 ((n : ℚ) / 100) = (n : ℚ) / 100 := by
  unfold round2
  rw [jsRoundQ_intCast_div]

/-- The round-and-fix normalisation step always produces weights summing
to exactly 1: every rounded weight is a multiple of 1/100, so the
residual correction restores the sum exactly. -/
theorem normalizeRound_sum (w : Weights) : (AIGen.normalizeRound w).sum = 1 := by
  unfold AIGen.normalizeRound
  set s := w.sum with hs
  set a := jsRoundQ (w.source / s * 100) with ha
  set b := jsRoundQ (w.time / s * 100) with hb
  set c := jsRoundQ (w.accuracy / s * 100) with hc
  set d := jsRoundQ (w.proof / s * 100) with hd
  simp only [round2, ← ha, ← hb, ← hc, ← hd, Weights.sum]
  split_ifs with h
  · rw [show ((a : ℚ)/100 + (1 - ((a : ℚ)/100 + (b : ℚ)/100 + (c : ℚ)/100 + (d : ℚ)/100)))
        = ((100 - b - c - d : ℤ) : ℚ)/100 by push_cast; ring]
    rw [jsRoundQ_intCast_div]
    push_cast
    ring
  · exact not_ne_iff.mp h

/-- Claim C3: trust classification is the strict top-down ladder — `high`
exactly on scores at least 90, `medium` exactly on remaining scores at
least the acceptance threshold, `low` exactly on remaining scores at
least the threshold minus 15, `untrusted` exactly below that — so the
four levels partition every score, and the classification is monotone in
the score. -/
theorem trustLadder_partition_monotone (s m : ℤ) :
    (Scoring.getTrustLevel s m = .high ↔ 90 ≤ s) ∧
    (Scoring.getTrustLevel s m = .medium ↔ s < 90 ∧ m ≤ s) ∧
    (Scoring.getTrustLevel s m = .low ↔ s < 90 ∧ s < m ∧ m - 15 ≤ s) ∧
    (Scoring.getTrustLevel s m = .untrusted ↔ s < 90 ∧ s < m ∧ s < m - 15) ∧
    (∀ t : ℤ, s ≤ t →
      (Scoring.getTrustLevel s m).rank ≤ (Scoring.getTrustLevel t m).rank) := by
  refine ⟨?_, ?_, ?_, ?_, ?_⟩
  · unfold Scoring.getTrustLevel
    split_ifs with h1 h2 h3 <;> simp_all
  · unfold Scoring.getTrustLevel
    split_ifs with h1 h2 h3 <;> simp_all
  · unfold Scoring.getTrustLevel
    split_ifs with h1 h2 h3 <;> simp_all
  · unfold Scoring.getTrustLevel
    split_ifs with h1 h2 h3 <;> simp_all
    omega
  · intro t ht
    unfold Scoring.getTrustLevel
    split_ifs <;> simp_all [TrustLevel.rank]
    all_goals omega

/-- Witness for the trust-ladder theorem at score 95, threshold 70, and
the monotonicity hypothesis discharged at 95 ≤ 96. -/
theorem trustLadder_witness :
    (Scoring.getTrustLevel 95 70 = .high ↔ (90 : ℤ) ≤ 95) ∧
    (Scoring.getTrustLevel 95 70).rank ≤ (Scoring.getTrustLevel 96 70).rank :=
  ⟨(trustLadder_partition_monotone 95 70).1,
   (trustLadder_partition_monotone 95 70).2.2.2.2 96 (by decide)⟩

/-- Each clamped weight is at least 0.05, so the clamped sum is positive. -/
theorem clamp0570_ge (x : ℚ) : 5/100 ≤ AIGen.clamp0570 x := le_max_left _ _

/-- Claim C2: every weight profile produced by `applyWeightAdjustments`
(from base weights summing to 1, with or without adjustments) and every
profile produced by `generateCustomFormula` has its four weights summing
to 1 within the 0.01 tolerance. -/
theorem weights_sum_invariant :
    (∀ (base : Weights) (adj : Option WeightAdjustments), base.sum = 1 →
      |(AIGen.applyWeightAdjustments base adj).sum - 1| ≤ 1/100) ∧
    (∀ (context : OracleDataContext) (reason nowTag : String),
      |(AIGen.generateCustomFormula context reason nowTag).weights.sum - 1| ≤ 1/100) := by
  constructor
  · intro base adj hbase
    match adj with
    | none =>
      simp only [AIGen.applyWeightAdjustments, hbase]
      norm_num
    | some a =>
      simp only [AIGen.applyWeightAdjustments, Weights.sum]
      set p := AIGen.clamp0570 (base.source + (a.source.getD 0)) with hp
      set q := AIGen.clamp0570 (base.time + (a.time.getD 0)) with hq
      set r := AIGen.clamp0570 (base.accuracy + (a.accuracy.getD 0)) with hr
      set t := AIGen.clamp0570 (base.proof + (a.proof.getD 0)) with ht
      have hpos : 0 < p + q + r + t := by
        have h1 := clamp0570_ge (base.source + (a.source.getD 0))
        have h2 := clamp0570_ge (base.time + (a.time.getD 0))
        have h3 := clamp0570_ge (base.accuracy + (a.accuracy.getD 0))
        have h4 := clamp0570_ge (base.proof + (a.proof.getD 0))
        rw [← hp] at h1; rw [← hq] at h2; rw [← hr] at h3; rw [← ht] at h4
        linarith
      have hsum : p / (p + q + r + t) + q / (p + q + r + t) +
          r / (p + q + r + t) + t / (p + q + r + t) = 1 := by
        field_simp
      rw [hsum]
      norm_num
  · intro context reason nowTag
    have h : (AIGen.generateCustomFormula context reason nowTag).weights.sum = 1 :=
      normalizeRound_sum _
    rw [h]
    norm_num

/-- Witness for the weight-sum invariant: a concrete adjusted profile and
a concrete generated formula, with the base-sum hypothesis discharged on
the balanced profile. -/
theorem weights_sum_invariant_witness :
    |(AIGen.applyWeightAdjustments ⟨25/100, 25/100, 25/100, 25/100⟩
        (some ⟨some (5/100), none, none, none⟩)).sum - 1| ≤ 1/100 ∧
    |(AIGen.generateCustomFormula sampleContext "strict financial data" "t0").weights.sum - 1|
      ≤ 1/100 :=
  ⟨weights_sum_invariant.1 ⟨25/100, 25/100, 25/100, 25/100⟩
      (some ⟨some (5/100), none, none, none⟩) (by norm_num [Weights.sum]),
   weights_sum_invariant.2 sampleContext "strict financial data" "t0"⟩

/-- Claim C8: the generated formula's minimum acceptable score is the
selected archetype's base threshold, raised by 10 on strict/high-standard
wording, lowered by 10 on lenient/flexible wording, and always clamped
into [50, 95]. -/
theorem generated_min_acceptable_score (context : OracleDataContext)
    (reason nowTag : String) :
    (AIGen.generateCustomFormula context reason nowTag).minAcceptableScore =
      max 50 (min 95
        (AIGen.templateMinScore (AIGen.detectTemplate reason) +
          (if jsIncludes (jsToLower reason) "strict" ||
              jsIncludes (jsToLower reason) "high standard" then 10 else 0) -
          (if jsIncludes (jsToLower reason) "lenient" ||
              jsIncludes (jsToLower reason) "flexible" then 10 else 0))) ∧
    50 ≤ (AIGen.generateCustomFormula context reason nowTag).minAcceptableScore ∧
    (AIGen.generateCustomFormula context reason nowTag).minAcceptableScore ≤ 95 := by
  refine ⟨?_, ?_, ?_⟩
  · simp only [AIGen.generateCustomFormula]
    split_ifs <;> omega
  · simp only [AIGen.generateCustomFormula]
    split_ifs <;> omega
  · simp only [AIGen.generateCustomFormula]
    split_ifs <;> omega

/-- Counterexample to claim C7 as stated: the web app's inline proof
factor (evaluate.ts) returns 0.95 for a verified attestation, which is
neither the claimed 1.0 allow-listed tier nor the claimed 0.9 unlisted
tier, so the proof factor does not take exactly the four claimed tiers
across the cited implementations. -/
theorem web_proof_score_not_four_tiers :
    WebEval.webCalculateProofScore true true = 95/100 ∧
    (95/100 : ℚ) ≠ 1 ∧ (95/100 : ℚ) ≠ 9/10 := by
  refine ⟨rfl, by norm_num, by norm_num⟩

/-- Case characterisation of the scoring package's proof factor. -/
theorem calculateProofScore_cases (hh vv : Bool) (dom : Option String) :
    Scoring.calculateProofScore hh vv dom =
      if hh = false then 4/10
      else if vv = false then 1/10
      else if (dom.elim false fun d =>
          Scoring.trustedDomains.any fun t => jsIncludes d t) then 1
      else 9/10 := by
  cases hh <;> cases vv <;> rcases dom with _ | d <;>
    simp [Scoring.calculateProofScore]

/-- Claim C7 amended: the scoring package's proof factor takes exactly
the four tiers 0.4 / 0.1 / 1.0 / 0.9 keyed on attestation outcome and
the domain allow-list, with the claimed ordering; the web app's inline
copy collapses both verified tiers into a single 0.95, and satisfies the
same ordering. -/
theorem proof_score_tiers_and_ordering (h v : Bool) (dom : Option String) :
    Scoring.calculateProofScore h v dom ∈ ([4/10, 1/10, 9/10, 1] : List ℚ) ∧
    Scoring.calculateProofScore false v dom = 4/10 ∧
    Scoring.calculateProofScore true false dom = 1/10 ∧
    (Scoring.calculateProofScore true true dom = 9/10 ∨
      Scoring.calculateProofScore true true dom = 1) ∧
    Scoring.calculateProofScore true true (some "api.binance.com") = 1 ∧
    Scoring.calculateProofScore true false dom <
      Scoring.calculateProofScore false v dom ∧
    Scoring.calculateProofScore false v dom <
      Scoring.calculateProofScore true true dom ∧
    WebEval.webCalculateProofScore true false <
      WebEval.webCalculateProofScore false v ∧
    WebEval.webCalculateProofScore false v <
      WebEval.webCalculateProofScore true true := by
  have hbinance : (some "api.binance.com").elim false
      (fun d => Scoring.trustedDomains.any fun t => jsIncludes d t) = true := by
    decide
  refine ⟨?_, ?_, ?_, ?_, ?_, ?_, ?_, ?_, ?_⟩ <;>
    simp only [calculateProofScore_cases, WebEval.webCalculateProofScore,
      List.mem_cons, List.not_mem_nil, or_false, hbinance]
  · split_ifs <;> first | exact (False.elim (by assumption)) | norm_num
  · norm_num
  · norm_num
  · split_ifs <;> first | exact (False.elim (by assumption)) | norm_num
  · norm_num
  · norm_num
  · split_ifs <;> first | exact (False.elim (by assumption)) | norm_num
  · norm_num
  · norm_num

/-- Claim C10: a request whose `dataValue` is present but falsy (the
number 0, the empty string, `false`, or `null`) is rejected with a 400
response and the pipeline is never invoked (the outcome is the
`badRequest` constructor, not the `ok`-wrapped pipeline result); an
empty-string `oracleName` or `dataType` is rejected the same way. -/
theorem falsy_fields_rejected_with_400 (oracleName dataType : String)
    (dv : JSValue) (url : Option String) (refs : Option (List ℚ))
    (now : ℤ) (rid : String) (deps : WebEval.EvalDeps) :
    ((dv = .num 0 ∨ dv = .str "" ∨ dv = .bool false ∨ dv = .null) →
      EvalRoute.postRoute oracleName dataType dv url refs now rid deps =
        .badRequest 400 "Missing required fields: oracleName, dataType, dataValue") ∧
    (EvalRoute.postRoute "" dataType dv url refs now rid deps =
      .badRequest 400 "Missing required fields: oracleName, dataType, dataValue") ∧
    (EvalRoute.postRoute oracleName "" dv url refs now rid deps =
      .badRequest 400 "Missing required fields: oracleName, dataType, dataValue") := by
  refine ⟨?_, ?_, ?_⟩
  · rintro (rfl | rfl | rfl | rfl) <;> simp [EvalRoute.postRoute, jsFalsy]
  · simp [EvalRoute.postRoute]
  · simp [EvalRoute.postRoute]

/-- Witness for the validation theorem: the zero `dataValue` case at a
concrete request. -/
theorem falsy_fields_rejected_witness :
    EvalRoute.postRoute "Chainlink" "price_feed" (.num 0) none none 0 "x"
      sampleDeps =
      .badRequest 400 "Missing required fields: oracleName, dataType, dataValue" :=
  (falsy_fields_rejected_with_400 "Chainlink" "price_feed" (.num 0) none none
    0 "x" sampleDeps).1 (Or.inl rfl)

/-- Counterexample to claim C9 as stated: expired entries are swept only
on insert, so after storing an entry at time 0 and reading at time
400000 (more than the 5-minute TTL later), the cache still contains the
entry, which is by then 400000 ms old. -/
theorem stale_entry_survives_read :
    ∃ e ∈ OracleRoute.runCache
        [.store "a" samplePending 0, .read "a" 400000],
      (400000 : ℤ) - e.createdAt > 300000 := by
  refine ⟨⟨"a", samplePending, 0⟩, ?_, by norm_num⟩
  exact List.mem_singleton.mpr rfl

/-- Claim C9 amended: eviction is sweep-on-insert — immediately after
every `storePendingVerification`, no entry strictly older than the
5-minute TTL remains (reads do not evict, so between inserts stale
entries can persist, as the counterexample shows). -/
theorem no_stale_entry_after_store (s : OracleRoute.CacheState) (k : String)
    (d : OracleRoute.PendingData) (now : ℤ) (e : OracleRoute.CacheEntry)
    (he : e ∈ OracleRoute.storePendingVerification k d now s) :
    now - e.createdAt ≤ 300000 := by
  unfold OracleRoute.storePendingVerification OracleRoute.mapSet at he
  have hclean : ∀ x : OracleRoute.CacheEntry,
      x ∈ OracleRoute.cleanupOldEntries now s → now - x.createdAt ≤ 300000 := by
    intro x hx
    unfold OracleRoute.cleanupOldEntries at hx
    have := (List.mem_filter.mp hx).2
    simp only [Bool.not_eq_true', decide_eq_false_iff_not, not_lt] at this
    omega
  split_ifs at he with hany
  · rcases List.mem_map.mp he with ⟨x, hx, hfx⟩
    by_cases hk : x.requestId == k
    · simp only [hk, if_true] at hfx
      subst hfx
      dsimp only
      omega
    · simp only [hk, if_false] at hfx
      subst hfx
      exact hclean x hx
  · rcases List.mem_append.mp he with hx | hx
    · exact hclean e hx
    · rcases List.mem_singleton.mp hx with rfl
      dsimp only
      omega

/-- Witness for the sweep-on-insert theorem: the entry just stored at
time 5 is 0 ms old, with its membership discharged concretely. -/
theorem no_stale_entry_after_store_witness :
    (5 : ℤ) - (⟨"a", samplePending, 5⟩ : OracleRoute.CacheEntry).createdAt ≤ 300000 :=
  no_stale_entry_after_store [] "a" samplePending 5 ⟨"a", samplePending, 5⟩
    (List.mem_singleton.mpr rfl)

/-- Counterexample to claim C5 as stated: two successive mock
verifications of the same `(oracleName, dataType, dataValue)` triple at
different `Date.now()` values agree on the verified flag but produce
different proof hashes, because the hashed material for the proof hash is
`seed + timestamp`. -/
theorem mock_verification_proof_hash_differs :
    (ZkVerify.mockVerification sampleVerifData 1).verified =
      (ZkVerify.mockVerification sampleVerifData 2).verified ∧
    (ZkVerify.mockVerification sampleVerifData 1).proofHash ≠
      (ZkVerify.mockVerification sampleVerifData 2).proofHash := by
  refine ⟨rfl, ?_⟩
  decide

/-- Claim C5 amended: the verified flag of the mock verification is a
deterministic function of the identifying fields alone (it is invariant
under the call timestamp), while the proof hash also depends on the
timestamp, so repeated calls agree on it only when they observe the same
`Date.now()` value. -/
theorem mock_verification_determinism (d : ZkVerify.OracleDataForVerification)
    (t1 t2 : ℕ) :
    (ZkVerify.mockVerification d t1).verified =
      (ZkVerify.mockVerification d t2).verified ∧
    (t1 = t2 → (ZkVerify.mockVerification d t1).proofHash =
      (ZkVerify.mockVerification d t2).proofHash) :=
  ⟨rfl, fun h => by rw [h]⟩

/-- Witness for the amended determinism theorem at a concrete input with
the equal-timestamp hypothesis discharged. -/
theorem mock_verification_determinism_witness :
    (ZkVerify.mockVerification sampleVerifData 7).proofHash =
      (ZkVerify.mockVerification sampleVerifData 7).proofHash :=
  (mock_verification_determinism sampleVerifData 7 7).2 rfl

/-- Claim C4 fails on the code: with `primaryValue = 0`, reference list
`[0]` (median 0) and tolerance 1, the accuracy calculator computes
`0 / 0 = NaN`, every subsequent comparison with NaN is false, and the
final `Math.max(0, Math.min(1, 0.9 * exp(NaN)))` propagates NaN, so the
returned value is NaN rather than a number in [0, 1] — contradicting the
module's own documentation that all scores are normalised to [0, 1]. -/
theorem accuracy_score_nan_at_zero_median :
    Scoring.calculateAccuracyScoreJs 0 [0] 1 = JsNum.nan := by
  simp only [Scoring.calculateAccuracyScoreJs, medianR, sortR, insertSortedR]
  norm_num [JsNum.div, JsNum.abs, JsNum.mul, JsNum.le, JsNum.sub,
    JsNum.exp, JsNum.neg, JsNum.jmin, JsNum.jmax]

/-- Counterexample to claim C6 as stated: the web app's inline time
factor (evaluate.ts) at a 450-second age with a 300-second maximum
returns `exp(-3)`, not the claimed linear post-cliff decay value
`max(0, 1 - (450/300 - 1) * 0.5) = 0.75`, so the cited implementations
do not all compute the claimed piecewise function. -/
theorem web_time_score_no_linear_decay :
    WebEval.calculateTimeScore 450000 0 300 ≠ Scoring.claimedTimeScore 450 300 := by
  have h1 : WebEval.calculateTimeScore 450000 0 300 = Real.exp (-3) := by
    simp only [WebEval.calculateTimeScore]
    norm_num
  have h2 : Scoring.claimedTimeScore 450 300 = 3/4 := by
    simp only [Scoring.claimedTimeScore]
    norm_num
  rw [h1, h2]
  have h3 : (4:ℝ) ≤ Real.exp 3 := by
    have := Real.add_one_le_exp (3:ℝ)
    linarith
  have h4 : Real.exp (-3) ≤ 1/4 := by
    rw [Real.exp_neg]
    calc (Real.exp 3)⁻¹ ≤ 4⁻¹ := inv_anti₀ (by norm_num) h3
    _ = 1/4 := by norm_num
  intro heq
  rw [heq] at h4
  norm_num at h4

/-- Claim C6 amended: the scoring package's `calculateTimeScore` is
exactly the claimed piecewise function of the age for any positive
configured maximum age — the fixed 0.5 penalty for negative age, the
linear post-cliff decay beyond the maximum, and the bare exponential
decay in range (its defensive clamp never binds there); the web app's
inline copy computes a different function, as the counterexample
records. -/
theorem time_score_piecewise (reported current maxAge : ℝ) (h : 0 < maxAge) :
    Scoring.calculateTimeScore reported current maxAge =
      Scoring.claimedTimeScore (current - reported) maxAge := by
  simp only [Scoring.calculateTimeScore, Scoring.claimedTimeScore]
  split_ifs with h1 h2
  · rfl
  · rfl
  · have hage : 0 ≤ current - reported := not_lt.mp h1
    have hnonpos : -(current - reported) / (maxAge / 2) ≤ 0 := by
      apply div_nonpos_of_nonpos_of_nonneg <;> linarith
    have hle1 : Real.exp (-(current - reported) / (maxAge / 2)) ≤ 1 := by
      calc Real.exp (-(current - reported) / (maxAge / 2)) ≤ Real.exp 0 :=
        Real.exp_le_exp.mpr hnonpos
      _ = 1 := Real.exp_zero
    have hpos : 0 ≤ Real.exp (-(current - reported) / (maxAge / 2)) :=
      (Real.exp_pos _).le
    rw [min_eq_right hle1, max_eq_right hpos]

/-- Witness for the amended time-score theorem at a 100-second age with
the positive-maximum hypothesis discharged at 300. -/
theorem time_score_piecewise_witness :
    Scoring.calculateTimeScore 0 100 300 =
      Scoring.claimedTimeScore (100 - 0) 300 :=
  time_score_piecewise 0 100 300 (by norm_num)

/-- Every successful result of the pipeline body carries `success = true`
and no error message. -/
theorem evaluateBody_ok_success (request : EvaluateRequest) (timestamp : ℤ)
    (requestId : String) (deps : WebEval.EvalDeps) (r : EvaluateResponse)
    (hb : WebEval.evaluateBody request timestamp requestId deps = .ok r) :
    r.success = true ∧ r.error = none := by
  unfold WebEval.evaluateBody at hb
  repeat' split at hb
  all_goals first
    | exact Except.noConfusion hb
    | (injection hb with hr; subst hr; exact ⟨rfl, rfl⟩)

/-- Claim C1: the pipeline always returns a structured response — either
a success (with no error field), or the failed envelope with score 0,
trust `untrusted` and a populated error message; in particular, whenever
any step of the body throws, the catch block returns exactly the failed
envelope carrying the thrown message. -/
theorem pipeline_returns_structured_result (request : EvaluateRequest)
    (now : ℤ) (ridSuffix : String) (deps : WebEval.EvalDeps) :
    ((WebEval.evaluateOracleData request now ridSuffix deps).success = true ∧
      (WebEval.evaluateOracleData request now ridSuffix deps).error = none ∨
     (WebEval.evaluateOracleData request now ridSuffix deps).success = false ∧
      (WebEval.evaluateOracleData request now ridSuffix deps).score = 0 ∧
      (WebEval.evaluateOracleData request now ridSuffix deps).trustLevel = .untrusted ∧
      (WebEval.evaluateOracleData request now ridSuffix deps).error.isSome = true) ∧
    (∀ e, WebEval.evaluateBody request now
        ("req_" ++ toString now ++ "_" ++ ridSuffix) deps = .error e →
      WebEval.evaluateOracleData request now ridSuffix deps =
        WebEval.errorEnvelope ("req_" ++ toString now ++ "_" ++ ridSuffix) now e) := by
  constructor
  · rcases hb : WebEval.evaluateBody request now
        ("req_" ++ toString now ++ "_" ++ ridSuffix) deps with e | r
    · right
      unfold WebEval.evaluateOracleData
      dsimp only
      rw [hb]
      exact ⟨rfl, rfl, rfl, rfl⟩
    · left
      have h := evaluateBody_ok_success request now
        ("req_" ++ toString now ++ "_" ++ ridSuffix) deps r hb
      unfold WebEval.evaluateOracleData
      dsimp only
      rw [hb]
      exact h
  · intro e he
    unfold WebEval.evaluateOracleData
    dsimp only
    rw [he]

/-- Witness for the pipeline contract: with a rejecting zkTLS
collaborator the pipeline returns the failed envelope, the
body-throws hypothesis being discharged by evaluation. -/
theorem pipeline_returns_structured_result_witness :
    WebEval.evaluateOracleData sampleRequest 0 "x" sampleDeps =
      WebEval.errorEnvelope ("req_" ++ toString (0 : ℤ) ++ "_" ++ "x") 0 "boom" :=
  (pipeline_returns_structured_result sampleRequest 0 "x" sampleDeps).2 "boom" rfl
